import Mathlib

/-!
Verification development for the atools live geospatial weather index
subsystem: geo primitives (`Rect`, from src/geo/rect.cpp), the
X-Plane weather reader (`XpWeatherReader`, from src/fs/weather/xpweatherreader.cpp)
and the file change monitor (`FileSystemWatcher`, from
src/util/filesystemwatcher.cpp).

Machine floats of the C++ code are embedded as exact rationals: all the
operations under study use only comparisons, negation and copying of
coordinate values, so exact rational arithmetic agrees with IEEE float
arithmetic on them. Qt value types are embedded as follows: `QString` as
`String`, `QDateTime` as `Option Nat` (an invalid datetime is `none`;
Qt orders any invalid datetime before every valid one), `QList` as `List`.
-/

namespace Atools

/-- `std::numeric_limits<float>::epsilon()` (exact value of `FLT_EPSILON`,
2⁻²³), used by the two-argument `atools::almostEqual` (src atools.h). -/
def floatEpsilon : ℚ := 1 / 8388608

/-- `atools::Pos::INVALID_VALUE = std::numeric_limits<float>::max()`
(exact value of `FLT_MAX`, 2¹²⁸ − 2¹⁰⁴). Modelled from the spec: the
`Pos` header is not among the sources; the spec requires an explicit
"invalid/unset" sentinel state distinct from (0,0). -/
def INVALID_VALUE : ℚ := 340282346638528859811704183484516925440

/-- `atools::almostEqual(f1, f2)` for `float` (src atools.h):
`std::abs(f1 - f2) <= std::numeric_limits<float>::epsilon()`. -/
def almostEqualF (f1 f2 : ℚ) : Bool := decide (|f1 - f2| ≤ floatEpsilon)

/-- `atools::almostEqual(f1, f2, epsilon)` (src atools.h):
`std::abs(f1 - f2) <= epsilon`. -/
def almostEqualEps (f1 f2 epsilon : ℚ) : Bool := decide (|f1 - f2| ≤ epsilon)

/-- Modelled from the spec: a geographic coordinate (longitude, latitude)
with an invalid sentinel (coordinates equal to `INVALID_VALUE`); the `Pos`
header is not among the sources. -/
structure Pos where
  lonX : ℚ
  latY : ℚ
deriving DecidableEq, Repr

/-- Modelled from the spec: a position is valid when neither coordinate
holds the sentinel value. -/
def Pos.isValid (p : Pos) : Bool :=
  decide (p.lonX ≠ INVALID_VALUE) && decide (p.latY ≠ INVALID_VALUE)

/-- An axis-aligned lat/lon rectangle given by top-left and bottom-right
corners (`atools::geo::Rect`, src rect.cpp). -/
structure Rect where
  topLeft : Pos
  bottomRight : Pos
deriving DecidableEq, Repr

/-- `Rect::getWest()` (rect.h accessor; modelled from the spec's data
model: the region is defined by its top-left and bottom-right corners). -/
def Rect.getWest (r : Rect) : ℚ := r.topLeft.lonX

/-- `Rect::getEast()` (rect.h accessor). -/
def Rect.getEast (r : Rect) : ℚ := r.bottomRight.lonX

/-- `Rect::getNorth()` (rect.h accessor). -/
def Rect.getNorth (r : Rect) : ℚ := r.topLeft.latY

/-- `Rect::getSouth()` (rect.h accessor). -/
def Rect.getSouth (r : Rect) : ℚ := r.bottomRight.latY

/-- Modelled from the spec: `Rect::isValid()` (rect.h) — a region may be
invalid (uninitialized); it is valid when both corner positions are. -/
def Rect.isValid (r : Rect) : Bool := r.topLeft.isValid && r.bottomRight.isValid

/-- `Rect::isPoint(epsilonDegree)` (src rect.cpp): valid and both corners
equal within epsilon on each axis. -/
def Rect.isPoint (r : Rect) (epsilonDegree : ℚ) : Bool :=
  r.isValid && almostEqualEps r.topLeft.lonX r.bottomRight.lonX epsilonDegree &&
  almostEqualEps r.topLeft.latY r.bottomRight.latY epsilonDegree

/-- `Rect::crossesAntiMeridian()` (src rect.cpp): east edge numerically
less than west edge, or the region spans the full longitude range. -/
def Rect.crossesAntiMeridian (r : Rect) : Bool :=
  decide (r.getEast < r.getWest) ||
  (almostEqualF r.getEast 180 && almostEqualF r.getWest (-180))

/-- `Rect::splitAtAntiMeridian()` (src rect.cpp): one region if not
crossing, two non-crossing halves if crossing, none if invalid. -/
def Rect.splitAtAntiMeridian (r : Rect) : List Rect :=
  if r.isValid then
    if r.crossesAntiMeridian then
      [⟨⟨r.getWest, r.getNorth⟩, ⟨180, r.getSouth⟩⟩,
       ⟨⟨-180, r.getNorth⟩, ⟨r.getEast, r.getSouth⟩⟩]
    else [r]
  else []

/-- `Rect::contains(pos)` (src rect.cpp): closed-interval membership in
one of the antimeridian split parts. -/
def Rect.contains (r : Rect) (pos : Pos) : Bool :=
  if r.isValid || pos.isValid then
    r.splitAtAntiMeridian.any (fun s =>
      decide (s.getWest ≤ pos.lonX) && decide (pos.lonX ≤ s.getEast) &&
      decide (s.getNorth ≥ pos.latY) && decide (pos.latY ≥ s.getSouth))
  else false

/-- Latitude part of `Rect::overlaps` (src rect.cpp, the four
boundary-intersection cases checked first). -/
def latOverlap (r other : Rect) : Bool :=
  (decide (r.getNorth ≥ other.getNorth) && decide (r.getSouth ≤ other.getNorth)) ||
  (decide (other.getNorth ≥ r.getNorth) && decide (other.getSouth ≤ r.getNorth)) ||
  (decide (r.getNorth ≥ other.getSouth) && decide (r.getSouth ≤ other.getSouth)) ||
  (decide (other.getNorth ≥ r.getSouth) && decide (other.getSouth ≤ r.getSouth))

/-- Longitude part of `Rect::overlaps` when neither region crosses the
antimeridian (src rect.cpp). -/
def lonOverlapNormal (r other : Rect) : Bool :=
  (decide (r.getEast ≥ other.getEast) && decide (r.getWest ≤ other.getEast)) ||
  (decide (other.getEast ≥ r.getEast) && decide (other.getWest ≤ r.getEast)) ||
  (decide (r.getEast ≥ other.getWest) && decide (r.getWest ≤ other.getWest)) ||
  (decide (other.getEast ≥ r.getWest) && decide (other.getWest ≤ r.getWest))

/-- Longitude part of `Rect::overlaps` when only `other` crosses the
antimeridian (src rect.cpp): `w <= e2 || e >= w2`. -/
def lonOtherCrosses (r other : Rect) : Bool :=
  decide (r.getWest ≤ other.getEast) || decide (r.getEast ≥ other.getWest)

/-- Longitude part of `Rect::overlaps` when only `r` crosses the
antimeridian (src rect.cpp): `w2 <= e || e2 >= w`. -/
def lonThisCrosses (r other : Rect) : Bool :=
  decide (other.getWest ≤ r.getEast) || decide (other.getEast ≥ r.getWest)

/-- `Rect::overlaps(other)` (src rect.cpp). Invalid regions never
overlap; two point regions overlap iff equal; otherwise the latitude
criterion is checked first and the longitude criterion is split on which
of the regions crosses the antimeridian. -/
def Rect.overlaps (r other : Rect) : Bool :=
  if !r.isValid || !other.isValid then false
  else if r.isPoint 0 && other.isPoint 0 then decide (r = other)
  else if latOverlap r other then
    if !r.crossesAntiMeridian then
      if !other.crossesAntiMeridian then lonOverlapNormal r other
      else lonOtherCrosses r other
    else
      if other.crossesAntiMeridian then true
      else lonThisCrosses r other
  else false

/-- Whitespace as removed by `QString::trimmed` (Qt library semantics;
restricted to the ASCII whitespace occurring in text files). -/
def isQtSpace (c : Char) : Bool :=
  decide (c = ' ') || decide (c = '\t') || decide (c = '\n') || decide (c = '\r') ||
  decide (c = '\x0b') || decide (c = '\x0c')

/-- `QString::trimmed` (Qt library semantics): the string with leading
and trailing whitespace removed. -/
def strTrim (s : String) : String :=
  String.mk (((s.toList.dropWhile isQtSpace).reverse.dropWhile isQtSpace).reverse)

/-- Qt `QDateTime::operator>` on possibly-invalid datetimes (embedded as
`Option Nat`): an invalid datetime sorts before every valid one, and is
not greater than another invalid one. -/
def tsGt : Option Nat → Option Nat → Bool
  | some a, some b => decide (b < a)
  | some _, none => true
  | none, _ => false

/-- A digit character, as matched by `\d` in the reader's regular
expressions. -/
def isDigitChar (c : Char) : Bool := decide ('0' ≤ c) && decide (c ≤ '9')

/-- The reader's `DATE_REGEXP` `^[\d]{4}/[\d]{2}/[\d]{2}` applied with
`match(line).hasMatch()` (src xpweatherreader.cpp): anchored at the start,
the rest of the line is unconstrained. -/
def dateRegexpMatch (l : String) : Bool :=
  match l.toList with
  | y1 :: y2 :: y3 :: y4 :: '/' :: mo1 :: mo2 :: '/' :: d1 :: d2 :: _ =>
    isDigitChar y1 && isDigitChar y2 && isDigitChar y3 && isDigitChar y4 &&
    isDigitChar mo1 && isDigitChar mo2 && isDigitChar d1 && isDigitChar d2
  | _ => false

/-- The reader's `IDENT_REGEXP` `^[A-Z0-9]{2,5}$` (src
xpweatherreader.cpp): a full match of 2–5 uppercase alphanumerics. -/
def identRegexpMatch (s : String) : Bool :=
  decide (2 ≤ s.length) && decide (s.length ≤ 5) &&
  s.toList.all (fun c => (decide ('A' ≤ c) && decide (c ≤ 'Z')) || isDigitChar c)

/-- `line.section(' ', 0, 0)` on a trimmed line (src xpweatherreader.cpp):
the text before the first space. -/
def firstToken (l : String) : String := String.mk (l.toList.takeWhile (fun c => c ≠ ' '))

/-- Numeric value of a digit character. -/
def digitVal (c : Char) : Nat := c.toNat - 48

/-- `QDateTime::fromString(line, "yyyy/MM/dd hh:mm")` (Qt library
semantics, used by src xpweatherreader.cpp): a strict fixed-width match of
the whole line; out-of-range fields give an invalid datetime (`none`).
Day-of-month validity is simplified to 1..31; a valid datetime is encoded
order-preservingly as minutes on an idealized 31-day-month calendar. -/
def parseXpDateTime (l : String) : Option Nat :=
  match l.toList with
  | [y1, y2, y3, y4, '/', mo1, mo2, '/', d1, d2, ' ', h1, h2, ':', mi1, mi2] =>
    if isDigitChar y1 && isDigitChar y2 && isDigitChar y3 && isDigitChar y4 &&
       isDigitChar mo1 && isDigitChar mo2 && isDigitChar d1 && isDigitChar d2 &&
       isDigitChar h1 && isDigitChar h2 && isDigitChar mi1 && isDigitChar mi2 then
      let y := ((digitVal y1 * 10 + digitVal y2) * 10 + digitVal y3) * 10 + digitVal y4
      let mo := digitVal mo1 * 10 + digitVal mo2
      let d := digitVal d1 * 10 + digitVal d2
      let h := digitVal h1 * 10 + digitVal h2
      let mi := digitVal mi1 * 10 + digitVal mi2
      if 1 ≤ mo ∧ mo ≤ 12 ∧ 1 ≤ d ∧ d ≤ 31 ∧ h ≤ 23 ∧ mi ≤ 59 then
        some ((((y * 12 + (mo - 1)) * 31 + (d - 1)) * 24 + h) * 60 + mi)
      else none
    else none
  | _ => none

/-- One observation: station identifier, raw report text and timestamp
(`MetarData` of src xpweatherreader.h; fields per the spec's data model:
the timestamp may be unset). -/
structure MetarData where
  ident : String
  metar : String
  timestamp : Option Nat
deriving DecidableEq, Repr

/-- Modelled from the spec: the station index
(`atools::geo::SimpleSpatialIndex`, whose header is not among the
sources) maps a unique identifier to an observation and its position. -/
abbrev SpatialIndex := List (String × MetarData × Pos)

/-- Modelled from the spec: lookup of an entry by identifier. -/
def indexLookup : SpatialIndex → String → Option (MetarData × Pos)
  | [], _ => none
  | (k, md, p) :: rest, key => if k == key then some (md, p) else indexLookup rest key

/-- Modelled from the spec: `contains(identifier)`. -/
def indexContains (idx : SpatialIndex) (key : String) : Bool := (indexLookup idx key).isSome

/-- Modelled from the spec: `value(identifier)` returns an empty default
observation when the identifier is absent (lookups never fail). -/
def indexValue (idx : SpatialIndex) (key : String) : MetarData :=
  match indexLookup idx key with
  | some (md, _) => md
  | none => ⟨"", "", none⟩

/-- Modelled from the spec: auxiliary removal of any prior entry for the
identifier. -/
def indexErase : SpatialIndex → String → SpatialIndex
  | [], _ => []
  | (k, md, p) :: rest, key =>
    if k == key then indexErase rest key else (k, md, p) :: indexErase rest key

/-- Modelled from the spec: `insert(identifier, observation, position)`
overwrites any prior entry for that identifier. (The position-validity
requirement is enforced by the caller in src xpweatherreader.cpp.) -/
def indexInsert (idx : SpatialIndex) (key : String) (md : MetarData) (pos : Pos) : SpatialIndex :=
  (key, md, pos) :: indexErase idx key

/-- Modelled from the spec: the linear scan for the entry geographically
closest to the query position, starting from a first candidate. The
great-circle distance is kept abstract as the parameter `dist`
(transcendental spherical trigonometry). -/
def nearestScan (dist : Pos → Pos → ℚ) (pos : Pos) :
    String × MetarData × Pos → SpatialIndex → String × MetarData × Pos
  | best, [] => best
  | best, e :: rest =>
    nearestScan dist pos (if dist e.2.2 pos < dist best.2.2 pos then e else best) rest

/-- Modelled from the spec: `getTypeOrNearest(identifier, queryPosition)`
— an exact entry is returned with its own key; otherwise the nearest
entry's key and observation; an empty key when the index is empty. -/
def getTypeOrNearest (dist : Pos → Pos → ℚ) (idx : SpatialIndex) (key : String) (pos : Pos) :
    String × MetarData :=
  match indexLookup idx key with
  | some (md, _) => (key, md)
  | none =>
    match idx with
    | [] => ("", ⟨"", "", none⟩)
    | e :: rest =>
      let best := nearestScan dist pos e rest
      (best.1, best.2.1)

/-- Diagnostics emitted by `XpWeatherReader::read` via `qWarning` (src
xpweatherreader.cpp): failure to open the file, or a malformed line
reported with file name, line counter and line text. -/
inductive LogEvent where
  | cannotOpen (fileName : String)
  | malformed (fileName : String) (lineNum : Nat) (line : String)
deriving DecidableEq, Repr

/-- The line loop of `XpWeatherReader::read` (src xpweatherreader.cpp):
trims each line; skips blank lines; on a line of length ≥ 4, a date match
updates the timestamp context, an identifier-led line is skipped when the
stored entry is strictly newer and otherwise inserted when its position
resolves, and any other line is logged as malformed; the line counter is
only incremented on paths that do not `continue`. -/
def readGo (fileName : String) (fetchAirportCoords : String → Pos) :
    List String → Option Nat → Nat → SpatialIndex → SpatialIndex × List LogEvent
  | [], _, _, idx => (idx, [])
  | line :: rest, lastTimestamp, lineNum, idx =>
    let l := strTrim line
    if l.toList.isEmpty then readGo fileName fetchAirportCoords rest lastTimestamp lineNum idx
    else if 4 ≤ l.length then
      if dateRegexpMatch l then
        readGo fileName fetchAirportCoords rest (parseXpDateTime l) lineNum idx
      else
        let ident := firstToken l
        if identRegexpMatch ident then
          if indexContains idx ident && tsGt (indexValue idx ident).timestamp lastTimestamp then
            readGo fileName fetchAirportCoords rest lastTimestamp lineNum idx
          else
            let pos := fetchAirportCoords ident
            let idx2 := if pos.isValid then indexInsert idx ident ⟨ident, l, lastTimestamp⟩ pos
                        else idx
            readGo fileName fetchAirportCoords rest lastTimestamp (lineNum + 1) idx2
        else
          let r := readGo fileName fetchAirportCoords rest lastTimestamp (lineNum + 1) idx
          (r.1, LogEvent.malformed fileName lineNum l :: r.2)
    else readGo fileName fetchAirportCoords rest lastTimestamp (lineNum + 1) idx

/-- `XpWeatherReader::read` (src xpweatherreader.cpp). The opened file is
embedded as `Option (List String)`: `none` when `QFile::open` fails (the
read returns `false` and the index member is left untouched), otherwise
the list of lines the text stream delivers before it reports end of
data — an I/O error after opening silently truncates that list, since
`QTextStream::atEnd()` cannot distinguish an error from end of file. On
an opened file the index is cleared and rebuilt and the read returns
`true`. -/
def read (fileName : String) (fetchAirportCoords : String → Pos)
    (openResult : Option (List String)) (prevIndex : SpatialIndex) :
    Bool × SpatialIndex × List LogEvent :=
  match openResult with
  | some lines =>
    let r := readGo fileName fetchAirportCoords lines none 1 []
    (true, r.1, r.2)
  | none => (false, prevIndex, [LogEvent.cannotOpen fileName])

/-- The query result record (`atools::fs::weather::MetarResult`, fields
per the spec's query interface). -/
structure MetarResult where
  requestIdent : String
  requestPos : Pos
  metarForStation : String
  metarForNearest : String
  timestamp : Option Nat
deriving DecidableEq, Repr

/-- `XpWeatherReader::getXplaneMetar` (src xpweatherreader.cpp): queries
the index for the exact station or its nearest neighbour and stamps the
result with the query's wall-clock time (embedded as the parameter
`now`). -/
def getXplaneMetar (dist : Pos → Pos → ℚ) (idx : SpatialIndex)
    (station : String) (pos : Pos) (now : Nat) : MetarResult :=
  let r0 : MetarResult :=
    { requestIdent := station, requestPos := pos,
      metarForStation := "", metarForNearest := "", timestamp := none }
  let found := getTypeOrNearest dist idx station pos
  let r1 :=
    if !(found.1 == "") then
      if found.1 == station then { r0 with metarForStation := found.2.metar }
      else { r0 with metarForNearest := found.2.metar }
    else r0
  { r1 with timestamp := some now }

/-- The external notification of `XpWeatherReader` (the `weatherUpdated`
signal, src xpweatherreader.cpp). -/
inductive XpEvent where
  | weatherUpdated
deriving DecidableEq, Repr

/-- The reader's state: its index member and the configured file path
(src xpweatherreader.h members used by src xpweatherreader.cpp). -/
structure ReaderState where
  index : SpatialIndex
  weatherFile : String
deriving DecidableEq, Repr

/-- `XpWeatherReader::pathChanged` (src xpweatherreader.cpp), the slot
run on each `FileSystemWatcher::fileUpdated` event: if the watched file
exists and is a regular file (`fileExistsIsFile`), re-run `read` and emit
`weatherUpdated` only when it succeeds; otherwise keep the current
index. -/
def pathChanged (fetchAirportCoords : String → Pos) (fileExistsIsFile : Bool)
    (openResult : Option (List String)) (st : ReaderState) : ReaderState × List XpEvent :=
  if fileExistsIsFile then
    let r := read st.weatherFile fetchAirportCoords openResult st.index
    if r.1 then ({ st with index := r.2.1 }, [XpEvent.weatherUpdated])
    else ({ st with index := r.2.1 }, [])
  else (st, [])

/-- `XpWeatherReader::readWeatherFile` (src xpweatherreader.cpp): clears
the index and the path, stores the new path, and performs the initial
eager read when the file exists — without emitting any notification. -/
def readWeatherFile (fetchAirportCoords : String → Pos) (fileExistsIsFile : Bool)
    (openResult : Option (List String)) (file : String) : ReaderState × List XpEvent :=
  let st1 : ReaderState := { index := [], weatherFile := file }
  if fileExistsIsFile then
    let r := read st1.weatherFile fetchAirportCoords openResult st1.index
    ({ st1 with index := r.2.1 }, [])
  else (st1, [])

/-- The filesystem metadata `FileSystemWatcher::pathOrFileChanged`
inspects through `QFileInfo` (src filesystemwatcher.cpp): existence,
regular-file flag, size and last-modified time. -/
structure FsFileInfo where
  fileExists : Bool
  isFile : Bool
  size : Nat
  lastModified : Nat
deriving DecidableEq, Repr

/-- The watcher's state (members of `FileSystemWatcher`, src
filesystemwatcher.cpp): last observed modification time (`none` for the
invalid initial `QDateTime`), last observed size, the two timers embedded
as armed/disarmed flags, and the watched path. -/
structure WatcherState where
  fileTimestamp : Option Nat
  lastFileSize : Nat
  delayTimerActive : Bool
  periodicTimerActive : Bool
  filename : String
deriving DecidableEq, Repr

/-- The watcher's outward event (`FileSystemWatcher::fileUpdated` signal,
src filesystemwatcher.cpp), carrying the watched path. -/
inductive WatcherEvent where
  | fileUpdated (path : String)
deriving DecidableEq, Repr

/-- `FileSystemWatcher::pathOrFileChanged` (src filesystemwatcher.cpp),
run on a native notification or a timer: stop the periodic timer; when
the file exists, is regular and exceeds `minFileSize`, either record the
new metadata and (re-)arm the single-shot debounce timer (first
observation, newer modification time, or different size) or re-arm the
periodic timer (unchanged); when no usable file is present, re-arm the
periodic timer. No event is emitted here. -/
def pathOrFileChanged (minFileSize : Nat) (info : FsFileInfo) (st : WatcherState) :
    WatcherState × List WatcherEvent :=
  let st1 := { st with periodicTimerActive := false }
  if info.fileExists && info.isFile && decide (minFileSize < info.size) then
    if !st1.fileTimestamp.isSome || tsGt (some info.lastModified) st1.fileTimestamp ||
       decide (st1.lastFileSize ≠ info.size) then
      ({ st1 with fileTimestamp := some info.lastModified, lastFileSize := info.size,
                  delayTimerActive := true }, [])
    else ({ st1 with periodicTimerActive := true }, [])
  else ({ st1 with periodicTimerActive := true }, [])

/-- `FileSystemWatcher::fileUpdatedDelayed` (src filesystemwatcher.cpp),
run when the single-shot debounce timer fires: emit one `fileUpdated`
event carrying the watched path, then arm the periodic timer. -/
def fileUpdatedDelayed (st : WatcherState) : WatcherState × List WatcherEvent :=
  ({ st with delayTimerActive := false, periodicTimerActive := true },
   [WatcherEvent.fileUpdated st.filename])

/-- A sequence of `pathOrFileChanged` checks (a burst of native
notifications and timer events before the debounce timer fires), with the
emitted events concatenated in order. -/
def runChanges (minFileSize : Nat) : List FsFileInfo → WatcherState → WatcherState × List WatcherEvent
  | [], st => (st, [])
  | i :: is, st =>
    let r1 := pathOrFileChanged minFileSize i st
    let r2 := runChanges minFileSize is r1.1
    (r2.1, r1.2 ++ r2.2)

theorem latOverlap_symm (a b : Rect) : latOverlap a b = latOverlap b a := by
  unfold latOverlap
  generalize decide (a.getNorth ≥ b.getNorth) = p1
  generalize decide (a.getSouth ≤ b.getNorth) = p2
  generalize decide (b.getNorth ≥ a.getNorth) = p3
  generalize decide (b.getSouth ≤ a.getNorth) = p4
  generalize decide (a.getNorth ≥ b.getSouth) = p5
  generalize decide (a.getSouth ≤ b.getSouth) = p6
  generalize decide (b.getNorth ≥ a.getSouth) = p7
  generalize decide (b.getSouth ≤ a.getSouth) = p8
  cases p1 <;> cases p2 <;> cases p3 <;> cases p4 <;>
    cases p5 <;> cases p6 <;> cases p7 <;> cases p8 <;> rfl

theorem lonOverlapNormal_symm (a b : Rect) : lonOverlapNormal a b = lonOverlapNormal b a := by
  unfold lonOverlapNormal
  generalize decide (a.getEast ≥ b.getEast) = p1
  generalize decide (a.getWest ≤ b.getEast) = p2
  generalize decide (b.getEast ≥ a.getEast) = p3
  generalize decide (b.getWest ≤ a.getEast) = p4
  generalize decide (a.getEast ≥ b.getWest) = p5
  generalize decide (a.getWest ≤ b.getWest) = p6
  generalize decide (b.getEast ≥ a.getWest) = p7
  generalize decide (b.getWest ≤ a.getWest) = p8
  cases p1 <;> cases p2 <;> cases p3 <;> cases p4 <;>
    cases p5 <;> cases p6 <;> cases p7 <;> cases p8 <;> rfl

theorem isPoint_not_crosses (r : Rect) (h : r.isPoint 0 = true) :
    r.crossesAntiMeridian = false := by
  simp only [Rect.isPoint, almostEqualEps, Bool.and_eq_true, decide_eq_true_eq] at h
  obtain ⟨⟨hv, hlon⟩, hlat⟩ := h
  have he : r.topLeft.lonX = r.bottomRight.lonX := by
    have h0 : r.topLeft.lonX - r.bottomRight.lonX = 0 := abs_nonpos_iff.mp hlon
    linarith
  have key : ¬(|r.topLeft.lonX - 180| ≤ floatEpsilon ∧
      |r.topLeft.lonX - (-180)| ≤ floatEpsilon) := by
    rintro ⟨h1, h2⟩
    rw [abs_le] at h1 h2
    simp only [floatEpsilon] at h1 h2
    linarith [h1.1, h2.2]
  simp only [Rect.crossesAntiMeridian, Rect.getEast, Rect.getWest, almostEqualF, ← he,
    lt_self_iff_false, decide_False, Bool.false_or, ← Bool.decide_and, decide_eq_false_iff_not]
  exact key

theorem contains_iff (r : Rect) (p : Pos) : r.contains p = true ↔
    ∃ sub ∈ r.splitAtAntiMeridian,
      sub.getWest ≤ p.lonX ∧ p.lonX ≤ sub.getEast ∧
      sub.getSouth ≤ p.latY ∧ p.latY ≤ sub.getNorth := by
  by_cases hv : r.isValid = true
  · simp only [Rect.contains, hv, Bool.true_or, if_true, List.any_eq_true, Bool.and_eq_true,
      decide_eq_true_eq, ge_iff_le]
    exact exists_congr fun sub => by tauto
  · have hv' : r.isValid = false := by
      cases h : r.isValid
      · rfl
      · exact absurd h hv
    simp [Rect.contains, Rect.splitAtAntiMeridian, hv']

/-- C3: the antimeridian-crossing region with west edge 170 and east
edge −170 contains every position at longitude 175 and at longitude −175
whose latitude lies inside the latitude span, and no position at
longitude 0; in general `contains` holds iff the position falls inside
one of the split parts under closed intervals on both axes. -/
theorem c3_antimeridian_containment :
    (∀ n s lat : ℚ, n ≠ INVALID_VALUE → s ≠ INVALID_VALUE → s ≤ lat → lat ≤ n →
      (Rect.contains ⟨⟨170, n⟩, ⟨-170, s⟩⟩ ⟨175, lat⟩ = true ∧
       Rect.contains ⟨⟨170, n⟩, ⟨-170, s⟩⟩ ⟨-175, lat⟩ = true) ∧
      (∀ lat2 : ℚ, Rect.contains ⟨⟨170, n⟩, ⟨-170, s⟩⟩ ⟨0, lat2⟩ = false)) ∧
    (∀ (r : Rect) (p : Pos), r.contains p = true ↔
      ∃ sub ∈ r.splitAtAntiMeridian,
        sub.getWest ≤ p.lonX ∧ p.lonX ≤ sub.getEast ∧
        sub.getSouth ≤ p.latY ∧ p.latY ≤ sub.getNorth) := by
  constructor
  · intro n s lat hn hs h1 h2
    have hval : Rect.isValid ⟨⟨170, n⟩, ⟨-170, s⟩⟩ = true := by
      simp only [Rect.isValid, Pos.isValid, Bool.and_eq_true, decide_eq_true_eq]
      refine ⟨⟨?_, hn⟩, ?_, hs⟩ <;> norm_num [INVALID_VALUE]
    have hcross : Rect.crossesAntiMeridian ⟨⟨170, n⟩, ⟨-170, s⟩⟩ = true := by
      simp only [Rect.crossesAntiMeridian, Rect.getEast, Rect.getWest, almostEqualF]
      norm_num
    have hsplit : Rect.splitAtAntiMeridian ⟨⟨170, n⟩, ⟨-170, s⟩⟩ =
        [⟨⟨170, n⟩, ⟨180, s⟩⟩, ⟨⟨-180, n⟩, ⟨-170, s⟩⟩] := by
      simp [Rect.splitAtAntiMeridian, hval, hcross, Rect.getWest, Rect.getEast,
        Rect.getNorth, Rect.getSouth]
    refine ⟨⟨?_, ?_⟩, fun lat2 => ?_⟩
    · rw [contains_iff]
      refine ⟨⟨⟨170, n⟩, ⟨180, s⟩⟩, by rw [hsplit]; exact List.mem_cons_self _ _, ?_⟩
      simp only [Rect.getWest, Rect.getEast, Rect.getNorth, Rect.getSouth]
      norm_num
      exact ⟨h1, h2⟩
    · rw [contains_iff]
      refine ⟨⟨⟨-180, n⟩, ⟨-170, s⟩⟩, by rw [hsplit]; simp, ?_⟩
      simp only [Rect.getWest, Rect.getEast, Rect.getNorth, Rect.getSouth]
      norm_num
      exact ⟨h1, h2⟩
    · rw [Bool.eq_false_iff]
      rw [Ne, contains_iff, hsplit]
      simp only [List.mem_cons, List.not_mem_nil, or_false, Rect.getWest, Rect.getEast,
        Rect.getNorth, Rect.getSouth]
      rintro ⟨sub, hsub | hsub, hcond⟩ <;> (subst hsub; norm_num at hcond)
  · exact contains_iff

/-- Witness for C3 at a concrete region and latitudes. -/
theorem c3_antimeridian_containment_witness :
    Rect.contains ⟨⟨170, 10⟩, ⟨-170, -10⟩⟩ ⟨175, 0⟩ = true ∧
    Rect.contains ⟨⟨170, 10⟩, ⟨-170, -10⟩⟩ ⟨-175, 0⟩ = true ∧
    Rect.contains ⟨⟨170, 10⟩, ⟨-170, -10⟩⟩ ⟨0, 37⟩ = false := by
  obtain ⟨hin, hout⟩ :=
    c3_antimeridian_containment.1 10 (-10) 0 (by norm_num [INVALID_VALUE])
      (by norm_num [INVALID_VALUE]) (by norm_num) (by norm_num)
  exact ⟨hin.1, hin.2, hout 37⟩

/-- C5: `overlaps` is symmetric for every pair of regions, valid or
invalid, crossing the antimeridian or not, degenerate or not. -/
theorem c5_overlap_symmetry (a b : Rect) : a.overlaps b = b.overlaps a := by
  unfold Rect.overlaps
  by_cases hva : a.isValid <;> by_cases hvb : b.isValid <;>
    simp only [hva, hvb, Bool.not_true, Bool.not_false, Bool.true_or, Bool.or_true,
      Bool.false_or, Bool.or_false, if_true, if_false]
  by_cases hpa : a.isPoint 0 <;> by_cases hpb : b.isPoint 0 <;>
    simp only [hpa, hpb, Bool.and_true, Bool.and_false, Bool.true_and, Bool.false_and,
      if_true, if_false]
  · exact decide_eq_decide.mpr eq_comm
  all_goals rw [latOverlap_symm b a]
  all_goals by_cases hl : latOverlap a b <;> simp only [hl, if_true, if_false]
  all_goals by_cases hca : a.crossesAntiMeridian <;> by_cases hcb : b.crossesAntiMeridian <;>
    simp only [hca, hcb, Bool.not_true, Bool.not_false, if_true, if_false]
  all_goals first
    | rfl
    | exact lonOverlapNormal_symm a b

/-- C6 counterexample: two valid regions that both cross the
antimeridian but whose latitude spans are disjoint do *not* overlap —
`Rect::overlaps` checks the latitude criterion before the trivial
both-crossing case. -/
theorem c6_both_crossing_counterexample :
    (Rect.isValid ⟨⟨170, 10⟩, ⟨-170, 0⟩⟩ = true ∧
     Rect.crossesAntiMeridian ⟨⟨170, 10⟩, ⟨-170, 0⟩⟩ = true ∧
     Rect.isValid ⟨⟨170, -20⟩, ⟨-170, -30⟩⟩ = true ∧
     Rect.crossesAntiMeridian ⟨⟨170, -20⟩, ⟨-170, -30⟩⟩ = true) ∧
    Rect.overlaps ⟨⟨170, 10⟩, ⟨-170, 0⟩⟩ ⟨⟨170, -20⟩, ⟨-170, -30⟩⟩ = false := by
  refine ⟨⟨?_, ?_, ?_, ?_⟩, ?_⟩ <;>
    norm_num [Rect.overlaps, Rect.isValid, Pos.isValid, INVALID_VALUE, Rect.isPoint,
      latOverlap, Rect.getNorth, Rect.getSouth, Rect.getEast, Rect.getWest, almostEqualEps,
      almostEqualF, floatEpsilon, Rect.crossesAntiMeridian, lonThisCrosses, lonOtherCrosses,
      lonOverlapNormal]

/-- C6 (amended): for valid regions that both cross the antimeridian
*and whose latitude intervals intersect*, `overlaps` returns true. -/
theorem c6_both_crossing_overlap (a b : Rect)
    (hva : a.isValid = true) (hvb : b.isValid = true)
    (hca : a.crossesAntiMeridian = true) (hcb : b.crossesAntiMeridian = true)
    (h1 : a.getSouth ≤ b.getNorth) (h2 : b.getSouth ≤ a.getNorth) :
    a.overlaps b = true := by
  have hpa : a.isPoint 0 = false := by
    cases h : a.isPoint 0
    · rfl
    · rw [isPoint_not_crosses a h] at hca
      exact absurd hca (by simp)
  have hlat : latOverlap a b = true := by
    unfold latOverlap
    rcases le_total a.getNorth b.getNorth with h | h
    · have : (decide (b.getNorth ≥ a.getNorth) && decide (b.getSouth ≤ a.getNorth)) = true := by
        simp only [Bool.and_eq_true, decide_eq_true_eq, ge_iff_le]
        exact ⟨h, h2⟩
      rw [this]
      simp
    · have : (decide (a.getNorth ≥ b.getNorth) && decide (a.getSouth ≤ b.getNorth)) = true := by
        simp only [Bool.and_eq_true, decide_eq_true_eq, ge_iff_le]
        exact ⟨h, h1⟩
      rw [this]
      simp
  unfold Rect.overlaps
  simp [hva, hvb, hpa, hlat, hca, hcb]

/-- Witness for the amended C6 at a concrete pair of crossing regions
with intersecting latitude spans. -/
theorem c6_both_crossing_overlap_witness :
    Rect.overlaps ⟨⟨170, 10⟩, ⟨-170, 0⟩⟩ ⟨⟨170, 5⟩, ⟨-170, -5⟩⟩ = true := by
  apply c6_both_crossing_overlap <;>
    norm_num [Rect.isValid, Pos.isValid, INVALID_VALUE, Rect.crossesAntiMeridian,
      Rect.getEast, Rect.getWest, Rect.getNorth, Rect.getSouth, almostEqualF, floatEpsilon]

theorem tsGt_asymm {a b : Option Nat} (h : tsGt a b = true) : tsGt b a = false := by
  cases a <;> cases b <;> simp_all [tsGt]
  omega

theorem read_two_blocks (fn : String) (fetchAirportCoords : String → Pos)
    (I d1 L1 d2 L2 : String) (t1 t2 : Option Nat) (p : Pos)
    (hd1e : (strTrim d1).toList.isEmpty = false) (hd1l : 4 ≤ (strTrim d1).length)
    (hd1m : dateRegexpMatch (strTrim d1) = true) (ht1 : parseXpDateTime (strTrim d1) = t1)
    (hd2e : (strTrim d2).toList.isEmpty = false) (hd2l : 4 ≤ (strTrim d2).length)
    (hd2m : dateRegexpMatch (strTrim d2) = true) (ht2 : parseXpDateTime (strTrim d2) = t2)
    (hL1e : (strTrim L1).toList.isEmpty = false) (hL1l : 4 ≤ (strTrim L1).length)
    (hL1d : dateRegexpMatch (strTrim L1) = false) (hL1t : firstToken (strTrim L1) = I)
    (hL2e : (strTrim L2).toList.isEmpty = false) (hL2l : 4 ≤ (strTrim L2).length)
    (hL2d : dateRegexpMatch (strTrim L2) = false) (hL2t : firstToken (strTrim L2) = I)
    (hIm : identRegexpMatch I = true)
    (hp : fetchAirportCoords I = p) (hpv : p.isValid = true) :
    (read fn fetchAirportCoords (some [d1, L1, d2, L2]) []).2.1 =
      if tsGt t1 t2 then [(I, ⟨I, strTrim L1, t1⟩, p)]
      else [(I, ⟨I, strTrim L2, t2⟩, p)] := by
  simp only [read, readGo, hd1e, hd1l, hd1m, ht1, hd2e, hd2l, hd2m, ht2,
    hL1e, hL1l, hL1d, hL1t, hL2e, hL2l, hL2d, hL2t, hIm, hp, hpv,
    indexContains, indexLookup, indexValue, indexInsert, indexErase,
    Option.isSome_none, Option.isSome_some, beq_self_eq_true, if_true, if_false,
    Bool.false_and, Bool.true_and, Bool.false_eq_true]
  by_cases h : tsGt t1 t2 = true <;> simp [h, indexInsert, indexErase]

/-- C1: for a file holding two observation lines for the same identifier
under two different date headers, the index entry after a successful read
holds the raw text (and timestamp) of the line whose timestamp context is
the later (greater) one — regardless of the order, since both orders are
instances of this statement. -/
theorem c1_timestamp_dedup (fn : String) (fetchAirportCoords : String → Pos)
    (I d1 L1 d2 L2 : String) (t1 t2 : Option Nat) (p : Pos)
    (hd1e : (strTrim d1).toList.isEmpty = false) (hd1l : 4 ≤ (strTrim d1).length)
    (hd1m : dateRegexpMatch (strTrim d1) = true) (ht1 : parseXpDateTime (strTrim d1) = t1)
    (hd2e : (strTrim d2).toList.isEmpty = false) (hd2l : 4 ≤ (strTrim d2).length)
    (hd2m : dateRegexpMatch (strTrim d2) = true) (ht2 : parseXpDateTime (strTrim d2) = t2)
    (hL1e : (strTrim L1).toList.isEmpty = false) (hL1l : 4 ≤ (strTrim L1).length)
    (hL1d : dateRegexpMatch (strTrim L1) = false) (hL1t : firstToken (strTrim L1) = I)
    (hL2e : (strTrim L2).toList.isEmpty = false) (hL2l : 4 ≤ (strTrim L2).length)
    (hL2d : dateRegexpMatch (strTrim L2) = false) (hL2t : firstToken (strTrim L2) = I)
    (hIm : identRegexpMatch I = true)
    (hp : fetchAirportCoords I = p) (hpv : p.isValid = true) :
    (tsGt t1 t2 = true →
      indexValue (read fn fetchAirportCoords (some [d1, L1, d2, L2]) []).2.1 I =
        ⟨I, strTrim L1, t1⟩) ∧
    (tsGt t2 t1 = true →
      indexValue (read fn fetchAirportCoords (some [d1, L1, d2, L2]) []).2.1 I =
        ⟨I, strTrim L2, t2⟩) := by
  have h := read_two_blocks fn fetchAirportCoords I d1 L1 d2 L2 t1 t2 p
    hd1e hd1l hd1m ht1 hd2e hd2l hd2m ht2 hL1e hL1l hL1d hL1t hL2e hL2l hL2d hL2t hIm hp hpv
  constructor
  · intro hgt
    rw [h, if_pos hgt]
    simp [indexValue, indexLookup]
  · intro hgt
    have hne : tsGt t1 t2 = false := tsGt_asymm hgt
    rw [h, if_neg (by simp [hne])]
    simp [indexValue, indexLookup]

/-- Witness for C1: the later date block comes first in the file and its
line wins nevertheless. -/
theorem c1_timestamp_dedup_witness :
    indexValue (read "metar.rwx" (fun _ => ⟨1, 2⟩)
        (some ["2017/07/30 18:55", "KHYI AAAA", "2017/07/30 18:45", "KHYI BBBB"]) []).2.1
      "KHYI" =
    ⟨"KHYI", strTrim "KHYI AAAA", parseXpDateTime (strTrim "2017/07/30 18:55")⟩ :=
  (c1_timestamp_dedup "metar.rwx" (fun _ => ⟨1, 2⟩) "KHYI"
    "2017/07/30 18:55" "KHYI AAAA" "2017/07/30 18:45" "KHYI BBBB"
    (parseXpDateTime (strTrim "2017/07/30 18:55"))
    (parseXpDateTime (strTrim "2017/07/30 18:45")) ⟨1, 2⟩
    (by decide) (by decide) (by decide) rfl (by decide) (by decide) (by decide) rfl
    (by decide) (by decide) (by decide) (by decide) (by decide) (by decide) (by decide)
    (by decide) (by decide) rfl (by decide)).1 (by decide)

/-- C10: an already-stored entry is only protected when its timestamp is
strictly newer than the current context; with equal timestamps (including
both unset) — and in general whenever the stored timestamp is not
strictly newer — the stored entry is overwritten, so the line occurring
later in the file wins. -/
theorem c10_equal_timestamp_overwrite (fn : String) (fetchAirportCoords : String → Pos)
    (I d1 L1 d2 L2 : String) (t1 t2 : Option Nat) (p : Pos)
    (hd1e : (strTrim d1).toList.isEmpty = false) (hd1l : 4 ≤ (strTrim d1).length)
    (hd1m : dateRegexpMatch (strTrim d1) = true) (ht1 : parseXpDateTime (strTrim d1) = t1)
    (hd2e : (strTrim d2).toList.isEmpty = false) (hd2l : 4 ≤ (strTrim d2).length)
    (hd2m : dateRegexpMatch (strTrim d2) = true) (ht2 : parseXpDateTime (strTrim d2) = t2)
    (hL1e : (strTrim L1).toList.isEmpty = false) (hL1l : 4 ≤ (strTrim L1).length)
    (hL1d : dateRegexpMatch (strTrim L1) = false) (hL1t : firstToken (strTrim L1) = I)
    (hL2e : (strTrim L2).toList.isEmpty = false) (hL2l : 4 ≤ (strTrim L2).length)
    (hL2d : dateRegexpMatch (strTrim L2) = false) (hL2t : firstToken (strTrim L2) = I)
    (hIm : identRegexpMatch I = true)
    (hp : fetchAirportCoords I = p) (hpv : p.isValid = true)
    (hng : tsGt t1 t2 = false) :
    indexValue (read fn fetchAirportCoords (some [d1, L1, d2, L2]) []).2.1 I =
      ⟨I, strTrim L2, t2⟩ := by
  rw [read_two_blocks fn fetchAirportCoords I d1 L1 d2 L2 t1 t2 p
    hd1e hd1l hd1m ht1 hd2e hd2l hd2m ht2 hL1e hL1l hL1d hL1t hL2e hL2l hL2d hL2t hIm hp hpv,
    if_neg (by simp [hng])]
  simp [indexValue, indexLookup]

/-- Witness for C10: both blocks carry the same date header; the second
line in the file overwrites the first. -/
theorem c10_equal_timestamp_overwrite_witness :
    indexValue (read "metar.rwx" (fun _ => ⟨1, 2⟩)
        (some ["2017/07/30 18:45", "KHYI AAAA", "2017/07/30 18:45", "KHYI BBBB"]) []).2.1
      "KHYI" =
    ⟨"KHYI", strTrim "KHYI BBBB", parseXpDateTime (strTrim "2017/07/30 18:45")⟩ :=
  c10_equal_timestamp_overwrite "metar.rwx" (fun _ => ⟨1, 2⟩) "KHYI"
    "2017/07/30 18:45" "KHYI AAAA" "2017/07/30 18:45" "KHYI BBBB"
    (parseXpDateTime (strTrim "2017/07/30 18:45"))
    (parseXpDateTime (strTrim "2017/07/30 18:45")) ⟨1, 2⟩
    (by decide) (by decide) (by decide) rfl (by decide) (by decide) (by decide) rfl
    (by decide) (by decide) (by decide) (by decide) (by decide) (by decide) (by decide)
    (by decide) (by decide) rfl (by decide) (by decide)

/-- C2 counterexample: a file that becomes unreadable right after a
successful open (the stream delivers no lines although the file is
nonempty) is *not* reported as failed — `read` has already cleared the
index, rebuilds it from the delivered lines, returns `true`, and the
previously loaded entry is gone. -/
theorem c2_midread_counterexample :
    (read "metar.rwx" (fun _ => ⟨1, 2⟩) (some [])
        [("KHYI", ⟨"KHYI", "KHYI OLD", some 1⟩, ⟨1, 2⟩)]).1 = true ∧
    (read "metar.rwx" (fun _ => ⟨1, 2⟩) (some [])
        [("KHYI", ⟨"KHYI", "KHYI OLD", some 1⟩, ⟨1, 2⟩)]).2.1 ≠
      [("KHYI", ⟨"KHYI", "KHYI OLD", some 1⟩, ⟨1, 2⟩)] := by
  exact ⟨rfl, by decide⟩

/-- C2 (amended): when the file cannot be opened, the read reports
failure and leaves the previous index untouched; a failure *after*
opening is not detected — the read rebuilds the index from whatever lines
the stream delivered before failing, independently of the previous index
contents, and reports success. -/
theorem c2_open_failure_atomicity (fn : String) (fetchAirportCoords : String → Pos)
    (prevIndex : SpatialIndex) :
    read fn fetchAirportCoords none prevIndex =
      (false, prevIndex, [LogEvent.cannotOpen fn]) ∧
    ∀ lines, read fn fetchAirportCoords (some lines) prevIndex =
        read fn fetchAirportCoords (some lines) [] ∧
      (read fn fetchAirportCoords (some lines) prevIndex).1 = true :=
  ⟨rfl, fun _ => ⟨rfl, rfl⟩⟩

/-- C8 counterexample: a non-blank line shorter than 4 characters that
matches neither pattern is skipped *silently* — the read emits no log
entry for it. -/
theorem c8_short_line_counterexample :
    ((strTrim "ab").toList.isEmpty = false ∧ dateRegexpMatch (strTrim "ab") = false ∧
      identRegexpMatch (firstToken (strTrim "ab")) = false) ∧
    (read "metar.rwx" (fun _ => ⟨1, 2⟩) (some ["ab"]) []).2.2 = [] := by
  exact ⟨⟨by decide, by decide, by decide⟩, rfl⟩

/-- C8 (amended): a non-blank line matching neither the date nor the
identifier pattern is skipped without inserting anything and processing
continues; it is logged with the file name and the running line counter
only when its trimmed length is at least 4 — shorter lines are skipped
without logging. -/
theorem c8_malformed_line_logged (fn : String) (fetchAirportCoords : String → Pos)
    (rest : List String) (ts : Option Nat) (ln : Nat) (idx : SpatialIndex) (L : String)
    (he : (strTrim L).toList.isEmpty = false) (hd : dateRegexpMatch (strTrim L) = false)
    (hi : identRegexpMatch (firstToken (strTrim L)) = false) :
    (4 ≤ (strTrim L).length →
      readGo fn fetchAirportCoords (L :: rest) ts ln idx =
        ((readGo fn fetchAirportCoords rest ts (ln + 1) idx).1,
         LogEvent.malformed fn ln (strTrim L) ::
           (readGo fn fetchAirportCoords rest ts (ln + 1) idx).2)) ∧
    ((strTrim L).length < 4 →
      readGo fn fetchAirportCoords (L :: rest) ts ln idx =
        readGo fn fetchAirportCoords rest ts (ln + 1) idx) := by
  constructor
  · intro hlen
    simp only [readGo, he, hd, hi, hlen, if_true, if_false, Bool.false_eq_true]
  · intro hlen
    have hnot : ¬(4 ≤ (strTrim L).length) := by omega
    simp only [readGo, he, hd, hi, hnot, if_true, if_false, Bool.false_eq_true]

/-- Witness for the amended C8 at a concrete malformed line of length 4. -/
theorem c8_malformed_line_logged_witness :
    readGo "metar.rwx" (fun _ => ⟨1, 2⟩) ["????"] none 1 [] =
      ((readGo "metar.rwx" (fun _ => ⟨1, 2⟩) [] none 2 []).1,
       LogEvent.malformed "metar.rwx" 1 (strTrim "????") ::
         (readGo "metar.rwx" (fun _ => ⟨1, 2⟩) [] none 2 []).2) :=
  (c8_malformed_line_logged "metar.rwx" (fun _ => ⟨1, 2⟩) [] none 1 [] "????"
    (by decide) (by decide) (by decide)).1 (by decide)

/-- C4: for a station identifier present in the index, the station query
returns its observation as an exact match — the exact-match text is the
stored report, the nearest-match text stays empty — and the result
carries the requested identifier, the requested position and the query
timestamp. -/
theorem c4_exact_match (dist : Pos → Pos → ℚ) (idx : SpatialIndex) (station : String)
    (pos : Pos) (now : Nat)
    (hIm : identRegexpMatch station = true) (hc : indexContains idx station = true) :
    getXplaneMetar dist idx station pos now =
      { requestIdent := station, requestPos := pos,
        metarForStation := (indexValue idx station).metar,
        metarForNearest := "", timestamp := some now } := by
  have h2 : 2 ≤ station.length := by
    simp only [identRegexpMatch, Bool.and_eq_true, decide_eq_true_eq] at hIm
    exact hIm.1.1
  have hne : (station == "") = false := by
    refine beq_eq_false_iff_ne.mpr fun h => ?_
    rw [h] at h2
    simp at h2
  obtain ⟨⟨md, q⟩, hl⟩ : ∃ x, indexLookup idx station = some x := by
    cases h : indexLookup idx station
    · rw [indexContains, h] at hc
      simp at hc
    · exact ⟨_, rfl⟩
  simp [getXplaneMetar, getTypeOrNearest, indexValue, hl, hne]

/-- Witness for C4 at a concrete one-entry index. -/
theorem c4_exact_match_witness :
    getXplaneMetar (fun _ _ => 0) [("KHYI", ⟨"KHYI", "KHYI 301845Z", some 5⟩, ⟨1, 2⟩)]
        "KHYI" ⟨3, 4⟩ 7 =
      { requestIdent := "KHYI", requestPos := ⟨3, 4⟩,
        metarForStation :=
          (indexValue [("KHYI", ⟨"KHYI", "KHYI 301845Z", some 5⟩, ⟨1, 2⟩)] "KHYI").metar,
        metarForNearest := "", timestamp := some 7 } :=
  c4_exact_match (fun _ _ => 0) [("KHYI", ⟨"KHYI", "KHYI 301845Z", some 5⟩, ⟨1, 2⟩)]
    "KHYI" ⟨3, 4⟩ 7 (by decide) (by decide)

/-- C7: the `weatherUpdated` notification is raised on a file-change
event exactly when the file still exists and the triggered re-read
succeeds; a failed read or a vanished file raises nothing, and the
initial eager load of `readWeatherFile` never raises it. -/
theorem c7_update_notification (fetchAirportCoords : String → Pos) (fileExistsIsFile : Bool)
    (openResult : Option (List String)) (st : ReaderState) (file : String) :
    ((pathChanged fetchAirportCoords fileExistsIsFile openResult st).2 =
        [XpEvent.weatherUpdated] ↔
      fileExistsIsFile = true ∧ openResult.isSome = true) ∧
    (readWeatherFile fetchAirportCoords fileExistsIsFile openResult file).2 = [] := by
  constructor
  · cases fileExistsIsFile <;> cases openResult <;> simp [pathChanged, read]
  · cases fileExistsIsFile <;> cases openResult <;> simp [readWeatherFile, read]

theorem pathOrFileChanged_no_event (minFileSize : Nat) (info : FsFileInfo)
    (st : WatcherState) : (pathOrFileChanged minFileSize info st).2 = [] := by
  unfold pathOrFileChanged
  split
  · dsimp only
    split <;> rfl
  · rfl

theorem pathOrFileChanged_filename (minFileSize : Nat) (info : FsFileInfo)
    (st : WatcherState) : (pathOrFileChanged minFileSize info st).1.filename = st.filename := by
  unfold pathOrFileChanged
  split
  · dsimp only
    split <;> rfl
  · rfl

theorem runChanges_no_event (minFileSize : Nat) (infos : List FsFileInfo)
    (st : WatcherState) : (runChanges minFileSize infos st).2 = [] := by
  induction infos generalizing st with
  | nil => rfl
  | cons i is ih =>
    simp only [runChanges]
    rw [pathOrFileChanged_no_event, ih]
    rfl

theorem runChanges_filename (minFileSize : Nat) (infos : List FsFileInfo)
    (st : WatcherState) : (runChanges minFileSize infos st).1.filename = st.filename := by
  induction infos generalizing st with
  | nil => rfl
  | cons i is ih =>
    simp only [runChanges]
    rw [ih, pathOrFileChanged_filename]

/-- C9: a detected change (re-)arms the single-shot debounce timer and
emits nothing — so any burst of checks followed by the debounce firing
yields exactly one `fileUpdated` event carrying the watched path, after
which the periodic poll timer is armed; when no usable file is present
(missing, not a regular file, or not above the minimum size) nothing is
emitted and the periodic poll timer is armed instead. -/
theorem c9_debounce_protocol (minFileSize : Nat) (info : FsFileInfo) (st : WatcherState)
    (infos : List FsFileInfo) :
    (pathOrFileChanged minFileSize info st).2 = [] ∧
    ((info.fileExists && info.isFile && decide (minFileSize < info.size)) = true →
      (!st.fileTimestamp.isSome || tsGt (some info.lastModified) st.fileTimestamp ||
        decide (st.lastFileSize ≠ info.size)) = true →
      (pathOrFileChanged minFileSize info st).1.delayTimerActive = true) ∧
    (fileUpdatedDelayed st =
      ({ st with delayTimerActive := false, periodicTimerActive := true },
       [WatcherEvent.fileUpdated st.filename])) ∧
    ((info.fileExists && info.isFile && decide (minFileSize < info.size)) = false →
      (pathOrFileChanged minFileSize info st).2 = [] ∧
      (pathOrFileChanged minFileSize info st).1.periodicTimerActive = true) ∧
    ((runChanges minFileSize infos st).2 ++
        (fileUpdatedDelayed (runChanges minFileSize infos st).1).2 =
      [WatcherEvent.fileUpdated st.filename]) := by
  refine ⟨pathOrFileChanged_no_event minFileSize info st, ?_, rfl, ?_, ?_⟩
  · intro hc hchg
    unfold pathOrFileChanged
    simp only [hc, if_true]
    simp only [hchg]
    rfl
  · intro hc
    unfold pathOrFileChanged
    simp [hc]
  · rw [runChanges_no_event]
    simp [fileUpdatedDelayed, runChanges_filename]

/-- Witness for C9: a first observation of a usable file arms the
debounce timer; a missing file arms the periodic timer; the debounce
firing emits exactly one event. -/
theorem c9_debounce_protocol_witness :
    (pathOrFileChanged 0 ⟨true, true, 5, 100⟩ ⟨none, 0, false, false, "metar.rwx"⟩).2 = [] ∧
    (pathOrFileChanged 0 ⟨true, true, 5, 100⟩
        ⟨none, 0, false, false, "metar.rwx"⟩).1.delayTimerActive = true ∧
    fileUpdatedDelayed ⟨none, 0, false, false, "metar.rwx"⟩ =
      (⟨none, 0, false, true, "metar.rwx"⟩, [WatcherEvent.fileUpdated "metar.rwx"]) ∧
    ((pathOrFileChanged 0 ⟨false, true, 0, 0⟩ ⟨none, 0, false, false, "metar.rwx"⟩).2 = [] ∧
      (pathOrFileChanged 0 ⟨false, true, 0, 0⟩
          ⟨none, 0, false, false, "metar.rwx"⟩).1.periodicTimerActive = true) ∧
    (runChanges 0 [⟨true, true, 5, 100⟩, ⟨true, true, 6, 200⟩]
        ⟨none, 0, false, false, "metar.rwx"⟩).2 ++
      (fileUpdatedDelayed (runChanges 0 [⟨true, true, 5, 100⟩, ⟨true, true, 6, 200⟩]
        ⟨none, 0, false, false, "metar.rwx"⟩).1).2 =
      [WatcherEvent.fileUpdated "metar.rwx"] := by
  have hA := c9_debounce_protocol 0 ⟨true, true, 5, 100⟩ ⟨none, 0, false, false, "metar.rwx"⟩
    [⟨true, true, 5, 100⟩, ⟨true, true, 6, 200⟩]
  have hB := c9_debounce_protocol 0 ⟨false, true, 0, 0⟩ ⟨none, 0, false, false, "metar.rwx"⟩ []
  exact ⟨hA.1, hA.2.1 (by decide) (by decide), hA.2.2.1, hB.2.2.2.1 (by decide), hA.2.2.2.2⟩

end Atools
